import Mathlib

/-!
Shallow embedding of the message lifecycle core of the re9ai-whatsapp-adapter
repository (Go), together with proofs checking the natural-language
specification against it.

Conventions of the embedding:
* Go strings are Lean `String`s; character-level operations from the Go
  standard library (`strings.HasPrefix`, `strings.ReplaceAll`,
  `strings.ToLower`, `strconv.Atoi`) are re-implemented below over `String.data`
  with the stdlib's documented semantics.
* `time.Time` values are modelled as `Nat` instants; `time.Now()` is passed in
  as an explicit `now` argument, and `time.Parse(time.RFC3339, s)` (an external
  library call) is passed in as an explicit `parseTS : String → Option Nat`
  argument, where `none` models a parse error.
* `uuid.UUID` internal ids are modelled as `Nat` and `uuid.New()` is passed in
  as an explicit `newId` argument.  `GetMessage` receives a typed id, eliding
  the textual `uuid.Parse` step of the source.
* The PostgreSQL table `whatsapp_messages` is modelled as a list of rows;
  `UPDATE ... WHERE twilio_sid = $1` maps every matching row and its
  `RowsAffected` is the number of matching rows.  The Redis cache is an
  association list keyed by internal message id, where `SET` prepends
  (shadowing any previous entry, which is observationally an overwrite for
  `GET`); cache TTLs are not modelled.  A `dbFail` flag models an errored
  `Exec`/`INSERT`; the best-effort cache write (whose failure the source only
  logs) is modelled as succeeding.
* HTTP handlers (gin) are modelled as functions from the already form-bound
  webhook payload and the store state to the responded HTTP status code, the
  new store state, and the list of logged failure events.  Form binding of
  `TwilioWebhookRequest` (all optional string fields) cannot fail on a form
  POST, so the handlers are modelled from the point after `ShouldBind`.
  The asynchronous fan-out goroutines touch neither the store, the cache nor
  the response and are omitted.
-/

/-- Models Go `strings.HasPrefix` at the character-list level:
`listIsPre p s` is true iff `p` is a prefix of `s`. -/
def listIsPre : List Char → List Char → Bool
  | [], _ => true
  | _ :: _, [] => false
  | a :: as, b :: bs => a == b && listIsPre as bs

/-- Go `strings.HasPrefix s pre`. -/
def strStartsWith (s pre : String) : Bool :=
  listIsPre pre.data s.data

/-- Models Go `strings.Replace` with `n = -1` (`strings.ReplaceAll`) over
character lists: scans left to right, replacing each non-overlapping
occurrence of `pat` by `rep`.  An empty `pat` leaves the string unchanged
(the source only ever passes one-character patterns). -/
def replAll (pat rep : List Char) : List Char → List Char
  | [] => []
  | c :: rest =>
    if hpat : pat ≠ [] ∧ listIsPre pat (c :: rest) = true then
      rep ++ replAll pat rep ((c :: rest).drop pat.length)
    else
      c :: replAll pat rep rest
termination_by l => l.length
decreasing_by
  · simp only [List.length_drop, List.length_cons]
    have hp : 0 < pat.length := List.length_pos.mpr hpat.1
    omega
  · simp only [List.length_cons]
    omega

/-- Go `strings.ReplaceAll s old new`. -/
def goReplaceAll (s old new : String) : String :=
  ⟨replAll old.data new.data s.data⟩

/-- Go `strings.ToLower`, restricted to its ASCII action (every string the
source maps is ASCII). -/
def goToLower (s : String) : String :=
  ⟨s.data.map Char.toLower⟩

/-- Go `strconv.Atoi`: optional sign, then one or more ASCII digits, rejecting
anything else and values outside the 64-bit int range (both cases return a
non-nil `err` in Go, modelled as `none`). -/
def goAtoi (s : String) : Option Int :=
  let cs := s.data
  let signDigits : Bool × List Char :=
    match cs with
    | '+' :: rest => (false, rest)
    | '-' :: rest => (true, rest)
    | _ => (false, cs)
  let neg := signDigits.1
  let ds := signDigits.2
  if ds = [] then none
  else if ds.all (·.isDigit) then
    let n : Nat := ds.foldl (fun a c => a * 10 + (c.toNat - '0'.toNat)) 0
    let v : Int := if neg then -(n : Int) else (n : Int)
    if v < -(2 ^ 63) ∨ (2 ^ 63 : Int) ≤ v then none else some v
  else none

/-- `internal/models/whatsapp.go`: `MessageDirection`. -/
inductive MessageDirection
  | inbound
  | outbound
deriving DecidableEq

/-- `internal/models/whatsapp.go`: `MessageStatus`. -/
inductive MessageStatus
  | pending
  | sent
  | delivered
  | read
  | failed
deriving DecidableEq

/-- `internal/models/whatsapp.go`: `MessageType`. -/
inductive MessageType
  | text
  | image
  | document
  | audio
  | video
  | location
  | contact
deriving DecidableEq

/-- `internal/models/whatsapp.go`: `WhatsAppMessage` (one row of the
`whatsapp_messages` table).  The Go field `Type` is spelled `type` here
because `Type` is reserved in Lean. -/
structure WhatsAppMessage where
  ID : Nat
  TwilioSID : String
  From : String
  To : String
  Direction : MessageDirection
  type : MessageType
  Status : MessageStatus
  Content : String
  MediaURL : Option String
  MediaType : Option String
  Timestamp : Nat
  CreatedAt : Nat
  UpdatedAt : Nat
  UserID : Option Nat
  SessionID : Option Nat
  ErrorCode : Option String
  ErrorMsg : Option String
deriving DecidableEq

/-- `internal/models/whatsapp.go`: `TwilioWebhookRequest` (form-bound webhook
payload, all plain strings). -/
structure TwilioWebhookRequest where
  MessageSid : String
  AccountSid : String
  MessagingServiceSid : String
  From : String
  To : String
  Body : String
  NumMedia : String
  MediaContentType0 : String
  MediaUrl0 : String
  Timestamp : String
  ApiVersion : String
  SmsStatus : String
  SmsSid : String
  SmsMessageSid : String
  ErrorCode : String
  ErrorMessage : String
  ProfileName : String
  WaId : String
deriving DecidableEq

/-- `internal/models/whatsapp.go`: `MessageStatusUpdate`. -/
structure MessageStatusUpdate where
  MessageSid : String
  Status : MessageStatus
  ErrorCode : Option String
  ErrorMessage : Option String
  Timestamp : Nat
deriving DecidableEq

/-- The `whatsapp_messages` table: one row per message. -/
abbrev DB := List WhatsAppMessage

/-- The Redis cache keyed by internal message id (the source key
`"message:" ++ id` is determined by the internal id alone). -/
abbrev Cache := List (Nat × WhatsAppMessage)

/-- Redis `SET`: prepending shadows any earlier entry for the same key. -/
def cacheSet (cache : Cache) (key : Nat) (message : WhatsAppMessage) : Cache :=
  (key, message) :: cache

/-- Redis `GET` as used by `GetMessage`. -/
def cacheGet (cache : Cache) (key : Nat) : Option WhatsAppMessage :=
  (cache.find? (fun e => e.1 == key)).map (·.2)

/-- `internal/services/whatsapp.go` lines 299-314: `determineMessageType`. -/
def determineMessageType (contentType : String) : MessageType :=
  if strStartsWith contentType "image/" then .image
  else if strStartsWith contentType "video/" then .video
  else if strStartsWith contentType "audio/" then .audio
  else if strStartsWith contentType "application/pdf" then .document
  else if strStartsWith contentType "application/" then .document
  else .text

/-- Restatement of the specification's words for the type-from-content-type
mapping (§4.1 / claim C8), kept separate from `determineMessageType` so the
two can be compared. -/
def specMessageTypeOfContentType (contentType : String) : MessageType :=
  if strStartsWith contentType "image/" = true then .image
  else if strStartsWith contentType "video/" = true then .video
  else if strStartsWith contentType "audio/" = true then .audio
  else if strStartsWith contentType "application/pdf" = true
      ∨ strStartsWith contentType "application/" = true then .document
  else .text

/-- `internal/services/whatsapp.go` lines 317-331: `mapTwilioStatus`. -/
def mapTwilioStatus (twilioStatus : String) : MessageStatus :=
  let w := goToLower twilioStatus
  if w = "queued" ∨ w = "accepted" then .pending
  else if w = "sent" then .sent
  else if w = "delivered" then .delivered
  else if w = "read" then .read
  else if w = "failed" ∨ w = "undelivered" then .failed
  else .pending

/-- `internal/services/whatsapp.go` lines 279-296: `formatWhatsAppNumber`. -/
def formatWhatsAppNumber (phoneNumber : String) : String :=
  if strStartsWith phoneNumber "whatsapp:" then phoneNumber
  else
    let cleaned := goReplaceAll (goReplaceAll (goReplaceAll
      (goReplaceAll phoneNumber " " "") "-" "") "(" "") ")" ""
    let cleaned := if strStartsWith cleaned "+" then cleaned else "+" ++ cleaned
    "whatsapp:" ++ cleaned

/-- `internal/services/whatsapp.go` lines 168-218: `ProcessIncomingMessage`.
`parseTS` stands for the external `time.Parse(time.RFC3339, ·)` call, `now`
for `time.Now()` and `newId` for `uuid.New()`. -/
def ProcessIncomingMessage (parseTS : String → Option Nat) (now newId : Nat)
    (webhookData : TwilioWebhookRequest) : WhatsAppMessage :=
  let typeAndMedia : MessageType × Option String × Option String :=
    match goAtoi webhookData.NumMedia with
    | some numMedia =>
      if 0 < numMedia ∧ webhookData.MediaUrl0 ≠ "" then
        (determineMessageType webhookData.MediaContentType0,
          some webhookData.MediaUrl0, some webhookData.MediaContentType0)
      else (.text, none, none)
    | none => (.text, none, none)
  let ts : Nat :=
    if webhookData.Timestamp ≠ "" then
      match parseTS webhookData.Timestamp with
      | some parsed => parsed
      | none => now
    else now
  { ID := newId
    TwilioSID := webhookData.MessageSid
    From := webhookData.From
    To := webhookData.To
    Direction := .inbound
    type := typeAndMedia.1
    Status := .delivered
    Content := webhookData.Body
    MediaURL := typeAndMedia.2.1
    MediaType := typeAndMedia.2.2
    Timestamp := ts
    CreatedAt := now
    UpdatedAt := now
    UserID := none
    SessionID := none
    ErrorCode := none
    ErrorMsg := none }

/-- `internal/services/whatsapp.go` lines 221-248: `ProcessStatusUpdate`
(`now` stands for `time.Now()`). -/
def ProcessStatusUpdate (now : Nat) (webhookData : TwilioWebhookRequest) :
    MessageStatusUpdate :=
  let update : MessageStatusUpdate :=
    { MessageSid := webhookData.MessageSid
      Status := mapTwilioStatus webhookData.SmsStatus
      ErrorCode := none
      ErrorMessage := none
      Timestamp := now }
  if webhookData.ErrorCode ≠ "" then
    { update with
      ErrorCode := some webhookData.ErrorCode
      ErrorMessage := some webhookData.ErrorMessage
      Status := .failed }
  else update

/-- Error results of `MessageService` write operations: a failed `Exec`
(`execFailed`) or zero rows affected (`messageNotFound`, the source's
"message not found for status update"). -/
inductive UpdateError
  | execFailed
  | messageNotFound
deriving DecidableEq

/-- Error result of `GetMessage` (`"message not found"`). -/
inductive GetError
  | notFound
deriving DecidableEq

/-- `internal/services/message.go` lines 34-84: `StoreMessage`.  `dbFail`
models a failing `INSERT`; on success the row is appended and the message is
cached under its internal id (the best-effort cache write is modelled as
succeeding). -/
def StoreMessage (dbFail : Bool) (message : WhatsAppMessage) (db : DB)
    (cache : Cache) : Except UpdateError (DB × Cache) :=
  if dbFail then .error .execFailed
  else .ok (db ++ [message], cacheSet cache message.ID message)

/-- `internal/services/message.go` lines 87-149: `GetMessage` — cache first,
then the table, caching a hit. -/
def GetMessage (messageID : Nat) (db : DB) (cache : Cache) :
    Except GetError (WhatsAppMessage × Cache) :=
  match cacheGet cache messageID with
  | some message => .ok (message, cache)
  | none =>
    match db.find? (fun r => r.ID == messageID) with
    | some message => .ok (message, cacheSet cache messageID message)
    | none => .error .notFound

/-- The effect of the source's
`UPDATE whatsapp_messages SET status, error_code, error_message, updated_at
WHERE twilio_sid = $1` on one row. -/
def applyStatusRow (statusUpdate : MessageStatusUpdate) (r : WhatsAppMessage) :
    WhatsAppMessage :=
  if r.TwilioSID == statusUpdate.MessageSid then
    { r with
      Status := statusUpdate.Status
      ErrorCode := statusUpdate.ErrorCode
      ErrorMsg := statusUpdate.ErrorMessage
      UpdatedAt := statusUpdate.Timestamp }
  else r

/-- `internal/services/message.go` lines 152-192: `UpdateMessageStatus`.  The
`UPDATE` touches every row whose `twilio_sid` matches; `RowsAffected = 0`
becomes `messageNotFound`.  Note that, as in the source, the cache is not
touched. -/
def UpdateMessageStatus (dbFail : Bool) (statusUpdate : MessageStatusUpdate)
    (db : DB) : Except UpdateError DB :=
  if dbFail then .error .execFailed
  else
    let db' := db.map (applyStatusRow statusUpdate)
    let rowsAffected :=
      (db.filter (fun r => r.TwilioSID == statusUpdate.MessageSid)).length
    if rowsAffected = 0 then .error .messageNotFound
    else .ok db'

/-- Failure events the handlers log (and deliberately swallow). -/
inductive LogEvent
  | storeMessageFailed
  | updateStatusFailed (e : UpdateError)
deriving DecidableEq

/-- Outcome of `HandleMessage`: HTTP status, store state, cache state, logged
failures. -/
structure MessageHandlerResult where
  httpStatus : Nat
  db : DB
  cache : Cache
  logs : List LogEvent
deriving DecidableEq

/-- Outcome of `HandleStatus`. -/
structure StatusHandlerResult where
  httpStatus : Nat
  db : DB
  logs : List LogEvent
deriving DecidableEq

/-- `internal/handlers/whatsapp.go` lines 66-108: `HandleMessage`, from the
point after `ShouldBind` succeeded.  A store failure is logged and the
handler still answers `200` (source comment: "Don't return error to
Twilio"). -/
def HandleMessage (dbFail : Bool) (parseTS : String → Option Nat)
    (now newId : Nat) (webhookData : TwilioWebhookRequest) (db : DB)
    (cache : Cache) : MessageHandlerResult :=
  let message := ProcessIncomingMessage parseTS now newId webhookData
  match StoreMessage dbFail message db cache with
  | .error _ => ⟨200, db, cache, [.storeMessageFailed]⟩
  | .ok (db', cache') => ⟨200, db', cache', []⟩

/-- `internal/handlers/whatsapp.go` lines 111-141: `HandleStatus`, from the
point after `ShouldBind` succeeded.  An update failure (including the
unknown-id case) is logged and the handler still answers `200`. -/
def HandleStatus (dbFail : Bool) (now : Nat)
    (webhookData : TwilioWebhookRequest) (db : DB) : StatusHandlerResult :=
  let statusUpdate := ProcessStatusUpdate now webhookData
  match UpdateMessageStatus dbFail statusUpdate db with
  | .error e => ⟨200, db, [.updateStatusFailed e]⟩
  | .ok db' => ⟨200, db', []⟩

/-- Decision taken by the gin middleware: pass the request on (`c.Next()`) or
abort with an HTTP status. -/
inductive AuthDecision
  | next
  | abortWith (code : Nat)
deriving DecidableEq

/-- `internal/middleware/auth.go` lines 13-38: `WhatsAppSignatureVerification`
as a decision on the configured secret and the `X-Twilio-Signature` header
value.  With no secret it skips; with a secret it rejects only an *empty*
header, then passes the request on without checking the signature value
(the body of the source reads "For now, we'll just verify the signature
exists"). -/
def WhatsAppSignatureVerification (secret signature : String) : AuthDecision :=
  if secret = "" then .next
  else if signature = "" then .abortWith 401
  else .next

/-- `internal/middleware/auth.go` lines 50-57: `verifySignature` (dead code in
the source: no caller).  `hmacSHA256Hex key msg` stands for the external
hex-encoded HMAC-SHA256 primitive. -/
def verifySignature (hmacSHA256Hex : String → String → String)
    (signature secret body url : String) : Bool :=
  signature == hmacSHA256Hex secret (url ++ body)

/-- A webhook payload with every form field absent (gin binds absent form
fields of `TwilioWebhookRequest` to the empty string). -/
def emptyWebhook : TwilioWebhookRequest :=
  { MessageSid := "", AccountSid := "", MessagingServiceSid := "", From := ""
    To := "", Body := "", NumMedia := "", MediaContentType0 := ""
    MediaUrl0 := "", Timestamp := "", ApiVersion := "", SmsStatus := ""
    SmsSid := "", SmsMessageSid := "", ErrorCode := "", ErrorMessage := ""
    ProfileName := "", WaId := "" }

/-- A stored message with provider id `"SM1"` used as concrete input. -/
def sampleMessage : WhatsAppMessage :=
  { ID := 1, TwilioSID := "SM1", From := "whatsapp:+551199990000"
    To := "whatsapp:+551188880000", Direction := .outbound, type := .text
    Status := .sent, Content := "hello", MediaURL := none, MediaType := none
    Timestamp := 0, CreatedAt := 0, UpdatedAt := 0, UserID := none
    SessionID := none, ErrorCode := none, ErrorMsg := none }

/-- The stored message of `sampleMessage` after reaching the terminal status
`read`. -/
def c1ReadMsg : WhatsAppMessage :=
  { sampleMessage with Status := MessageStatus.read }

/-- A late-arriving, ordinally-behind `sent` update for `"SM1"`. -/
def c1LateSent : MessageStatusUpdate :=
  { MessageSid := "SM1", Status := .sent, ErrorCode := none
    ErrorMessage := none, Timestamp := 5 }

/-- What `UpdateMessageStatus` actually persists for `c1ReadMsg` on the late
`sent` update: the terminal status is overwritten. -/
def c1Overwritten : WhatsAppMessage :=
  { c1ReadMsg with Status := MessageStatus.sent, UpdatedAt := 5 }

/-- A `delivered` update for `"SM1"` used as concrete input. -/
def c1Delivered : MessageStatusUpdate :=
  { MessageSid := "SM1", Status := .delivered, ErrorCode := none
    ErrorMessage := none, Timestamp := 6 }

/-- A `delivered` update for `"SM1"` used as concrete input. -/
def c2Update : MessageStatusUpdate :=
  { MessageSid := "SM1", Status := .delivered, ErrorCode := none
    ErrorMessage := none, Timestamp := 9 }

/-- A `delivered` update for `"SM1"` used as concrete input. -/
def c3Update : MessageStatusUpdate :=
  { MessageSid := "SM1", Status := .delivered, ErrorCode := none
    ErrorMessage := none, Timestamp := 7 }

/-- `sampleMessage` as persisted after `c3Update` is applied. -/
def c3Updated : WhatsAppMessage :=
  { sampleMessage with Status := MessageStatus.delivered, UpdatedAt := 7 }

/-- A status webhook for a provider message id with no stored record. -/
def c4Webhook : TwilioWebhookRequest :=
  { emptyWebhook with MessageSid := "SMunknown", SmsStatus := "delivered" }

/-- An inbound message webhook used as concrete input. -/
def c5Webhook : TwilioWebhookRequest :=
  { emptyWebhook with
    MessageSid := "SM1", From := "+551199990000", Body := "hi"
    NumMedia := "0" }

/-- A status webhook carrying a non-empty error code. -/
def c7Webhook : TwilioWebhookRequest :=
  { emptyWebhook with
    MessageSid := "SM1", SmsStatus := "delivered", ErrorCode := "30008"
    ErrorMessage := "unreachable destination" }

/-- The inbound text-message webhook of the specification's scenario. -/
def c9Webhook : TwilioWebhookRequest :=
  { emptyWebhook with
    MessageSid := "SM1", From := "+551199990000", Body := "oi"
    NumMedia := "0" }

/-! ### Helper lemmas -/

theorem applyStatusRow_TwilioSID (u : MessageStatusUpdate)
    (r : WhatsAppMessage) : (applyStatusRow u r).TwilioSID = r.TwilioSID := by
  unfold applyStatusRow
  split <;> rfl

theorem applyStatusRow_absorb {u1 u2 : MessageStatusUpdate}
    (h : u1.MessageSid = u2.MessageSid) (r : WhatsAppMessage) :
    applyStatusRow u2 (applyStatusRow u1 r) = applyStatusRow u2 r := by
  by_cases hc : (r.TwilioSID == u1.MessageSid) = true
  · have hc2 : (r.TwilioSID == u2.MessageSid) = true := by rw [← h]; exact hc
    simp [applyStatusRow, hc, hc2]
  · have hc2 : ¬((r.TwilioSID == u2.MessageSid) = true) := by rw [← h]; exact hc
    simp [applyStatusRow, hc, hc2]

theorem map_applyStatusRow_absorb {u1 u2 : MessageStatusUpdate}
    (h : u1.MessageSid = u2.MessageSid) (db : DB) :
    (db.map (applyStatusRow u1)).map (applyStatusRow u2)
      = db.map (applyStatusRow u2) := by
  induction db with
  | nil => rfl
  | cons r rest ih => simp [applyStatusRow_absorb h, ih]

theorem exists_sid_map {db : DB} {s : String}
    (h : ∃ r ∈ db, r.TwilioSID = s) (u : MessageStatusUpdate) :
    ∃ r ∈ db.map (applyStatusRow u), r.TwilioSID = s := by
  obtain ⟨r, hr, hs⟩ := h
  exact ⟨applyStatusRow u r, List.mem_map_of_mem _ hr,
    by rw [applyStatusRow_TwilioSID]; exact hs⟩

theorem UpdateMessageStatus_ok (u : MessageStatusUpdate) (db : DB)
    (h : ∃ r ∈ db, r.TwilioSID = u.MessageSid) :
    UpdateMessageStatus false u db = .ok (db.map (applyStatusRow u)) := by
  obtain ⟨r, hr, hsid⟩ := h
  have hmem : r ∈ db.filter (fun r => r.TwilioSID == u.MessageSid) :=
    List.mem_filter.mpr ⟨hr, by simp [hsid]⟩
  have hlen :
      ¬((db.filter (fun r => r.TwilioSID == u.MessageSid)).length = 0) := by
    intro h0
    rw [List.length_eq_zero] at h0
    rw [h0] at hmem
    exact absurd hmem (List.not_mem_nil r)
  simp [UpdateMessageStatus, hlen]

theorem ProcessStatusUpdate_MessageSid (now : Nat)
    (wd : TwilioWebhookRequest) :
    (ProcessStatusUpdate now wd).MessageSid = wd.MessageSid := by
  unfold ProcessStatusUpdate
  split <;> rfl

theorem listIsPre_self_append (l m : List Char) :
    listIsPre l (l ++ m) = true := by
  induction l with
  | nil => rfl
  | cons a as ih => simp [listIsPre, ih]

theorem strStartsWith_append_self (p t : String) :
    strStartsWith (p ++ t) p = true := by
  have hd : (p ++ t).data = p.data ++ t.data := by cases p; cases t; rfl
  unfold strStartsWith
  rw [hd]
  exact listIsPre_self_append p.data t.data

theorem formatWhatsAppNumber_startsWith (s : String) :
    strStartsWith (formatWhatsAppNumber s) "whatsapp:" = true := by
  unfold formatWhatsAppNumber
  by_cases h : strStartsWith s "whatsapp:" = true
  · rw [if_pos h]; exact h
  · rw [if_neg h]; exact strStartsWith_append_self "whatsapp:" _

theorem formatWhatsAppNumber_fixes (t : String)
    (h : strStartsWith t "whatsapp:" = true) : formatWhatsAppNumber t = t := by
  unfold formatWhatsAppNumber
  rw [if_pos h]

/-! ### Claims -/

/-- C7: an unmapped or unknown provider status string (one whose lowercasing
is none of the recognized Twilio statuses) maps to the canonical status
`pending`, and a status webhook carrying a non-empty error code yields a
StatusUpdate whose status is `failed` regardless of the reported provider
status. -/
theorem unknown_status_pending_and_error_forces_failed :
    (∀ s : String,
      goToLower s ∉ (["queued", "accepted", "sent", "delivered", "read",
        "failed", "undelivered"] : List String) →
      mapTwilioStatus s = .pending) ∧
    (∀ (now : Nat) (wd : TwilioWebhookRequest), wd.ErrorCode ≠ "" →
      (ProcessStatusUpdate now wd).Status = .failed) := by
  constructor
  · intro s h
    simp only [List.mem_cons, List.mem_singleton, not_or] at h
    obtain ⟨h1, h2, h3, h4, h5, h6, h7⟩ := h
    simp [mapTwilioStatus, h1, h2, h3, h4, h5, h6, h7]
  · intro now wd h
    simp [ProcessStatusUpdate, h]

/-- C7 witness: the unknown status "canceled" maps to `pending`, and the
error-carrying webhook `c7Webhook` (reported status "delivered", error code
"30008") yields status `failed`. -/
theorem unknown_status_pending_and_error_forces_failed_witness :
    mapTwilioStatus "canceled" = .pending ∧
    (ProcessStatusUpdate 3 c7Webhook).Status = .failed :=
  ⟨unknown_status_pending_and_error_forces_failed.1 "canceled" (by decide),
    unknown_status_pending_and_error_forces_failed.2 3 c7Webhook (by decide)⟩

/-- C8: the message type derived from a media content-type string follows the
prefix rules of the specification: `image/*` is image, `video/*` is video,
`audio/*` is audio, `application/pdf` or any other `application/*` is
document, anything else is text. -/
theorem determineMessageType_matches_spec (contentType : String) :
    determineMessageType contentType
      = specMessageTypeOfContentType contentType := by
  unfold determineMessageType specMessageTypeOfContentType
  by_cases h1 : strStartsWith contentType "image/" = true <;>
    by_cases h2 : strStartsWith contentType "video/" = true <;>
    by_cases h3 : strStartsWith contentType "audio/" = true <;>
    by_cases h4 : strStartsWith contentType "application/pdf" = true <;>
    by_cases h5 : strStartsWith contentType "application/" = true <;>
    simp [h1, h2, h3, h4, h5]

/-- C10: destination-address normalization for the outbound send path is
idempotent, and every normalized result carries the "whatsapp:" scheme. -/
theorem formatWhatsAppNumber_idempotent_and_schemed (s : String) :
    formatWhatsAppNumber (formatWhatsAppNumber s) = formatWhatsAppNumber s ∧
    strStartsWith (formatWhatsAppNumber s) "whatsapp:" = true :=
  ⟨formatWhatsAppNumber_fixes _ (formatWhatsAppNumber_startsWith s),
    formatWhatsAppNumber_startsWith s⟩

/-- C1 counterexample: with the stored message for "SM1" in the terminal
status `read`, applying a late, ordinally-behind `sent` update is not a
no-op — `UpdateMessageStatus` succeeds and overwrites the terminal status
with `sent`. -/
theorem terminal_status_overwritten_by_late_update :
    UpdateMessageStatus false c1LateSent [c1ReadMsg] = .ok [c1Overwritten] ∧
    c1ReadMsg.Status = .read ∧ c1Overwritten.Status = .sent :=
  ⟨rfl, rfl, rfl⟩

/-- C1 (amended): status persistence is last-writer-wins. For an existing
provider message id, every update unconditionally overwrites the persisted
status, error fields and update time — there is no terminal-status or
ordinal guard — so after two updates for the same id the store is exactly
what the second update alone produces, and the final status reflects arrival
order. -/
theorem status_update_last_writer_wins (u1 u2 : MessageStatusUpdate) (db : DB)
    (hsid : u1.MessageSid = u2.MessageSid)
    (h : ∃ r ∈ db, r.TwilioSID = u1.MessageSid) :
    ∃ db1 db2,
      UpdateMessageStatus false u1 db = .ok db1 ∧
      UpdateMessageStatus false u2 db1 = .ok db2 ∧
      UpdateMessageStatus false u2 db = .ok db2 := by
  have h2 : ∃ r ∈ db.map (applyStatusRow u1), r.TwilioSID = u2.MessageSid :=
    hsid ▸ exists_sid_map h u1
  have h3 : ∃ r ∈ db, r.TwilioSID = u2.MessageSid := hsid ▸ h
  refine ⟨db.map (applyStatusRow u1), db.map (applyStatusRow u2),
    UpdateMessageStatus_ok u1 db h, ?_, UpdateMessageStatus_ok u2 db h3⟩
  rw [UpdateMessageStatus_ok u2 _ h2, map_applyStatusRow_absorb hsid]

/-- C1 witness: concrete last-writer-wins run — a `sent` update then a
`delivered` update for "SM1", starting from the terminal status `read`. -/
theorem status_update_last_writer_wins_witness :
    ∃ db1 db2,
      UpdateMessageStatus false c1LateSent [c1ReadMsg] = .ok db1 ∧
      UpdateMessageStatus false c1Delivered db1 = .ok db2 ∧
      UpdateMessageStatus false c1Delivered [c1ReadMsg] = .ok db2 :=
  status_update_last_writer_wins c1LateSent c1Delivered [c1ReadMsg] rfl
    ⟨c1ReadMsg, List.mem_singleton.mpr rfl, rfl⟩

/-- C2: for a provider message id with an existing record, applying the same
StatusUpdate twice yields the same final persisted state as applying it
once (both applications succeed and the second is the identity on the
store). -/
theorem status_update_idempotent (u : MessageStatusUpdate) (db : DB)
    (h : ∃ r ∈ db, r.TwilioSID = u.MessageSid) :
    ∃ db1, UpdateMessageStatus false u db = .ok db1 ∧
      UpdateMessageStatus false u db1 = .ok db1 := by
  refine ⟨db.map (applyStatusRow u), UpdateMessageStatus_ok u db h, ?_⟩
  rw [UpdateMessageStatus_ok u _ (exists_sid_map h u),
    map_applyStatusRow_absorb rfl]

/-- C2 witness: a concrete `delivered` update applied twice to the store
holding `sampleMessage`. -/
theorem status_update_idempotent_witness :
    ∃ db1, UpdateMessageStatus false c2Update [sampleMessage] = .ok db1 ∧
      UpdateMessageStatus false c2Update db1 = .ok db1 :=
  status_update_idempotent c2Update [sampleMessage]
    ⟨sampleMessage, List.mem_singleton.mpr rfl, rfl⟩

/-- C3: evaluation at the failing input — after `StoreMessage` caches the
message and `UpdateMessageStatus` successfully persists `delivered`,
`GetMessage` for the affected internal id still serves the cached pre-update
record with status `sent`: the mutation never invalidates or refreshes the
cache entry. -/
theorem status_update_leaves_stale_cache_entry :
    StoreMessage false sampleMessage [] []
      = .ok ([sampleMessage], [(1, sampleMessage)]) ∧
    UpdateMessageStatus false c3Update [sampleMessage] = .ok [c3Updated] ∧
    c3Updated.Status = .delivered ∧
    GetMessage 1 [c3Updated] [(1, sampleMessage)]
      = .ok (sampleMessage, [(1, sampleMessage)]) ∧
    sampleMessage.Status = .sent ∧
    MessageStatus.sent ≠ MessageStatus.delivered :=
  ⟨rfl, rfl, rfl, rfl, rfl, by decide⟩

/-- C4: a status webhook whose provider message id has no stored record is
acknowledged with HTTP 200, leaves the store untouched (no record created or
altered), and is reported only as the logged non-fatal unknown-message
skip. -/
theorem unknown_sid_status_webhook_acks_200 (now : Nat)
    (wd : TwilioWebhookRequest) (db : DB)
    (h : ∀ r ∈ db, r.TwilioSID ≠ wd.MessageSid) :
    HandleStatus false now wd db
      = ⟨200, db, [.updateStatusFailed .messageNotFound]⟩ := by
  have hfilter :
      db.filter
        (fun r => r.TwilioSID == (ProcessStatusUpdate now wd).MessageSid)
        = [] := by
    rw [ProcessStatusUpdate_MessageSid]
    rw [List.filter_eq_nil_iff]
    intro r hr
    simp only [beq_iff_eq]
    exact h r hr
  simp [HandleStatus, UpdateMessageStatus, hfilter]

/-- C4 witness: the unknown-id webhook `c4Webhook` against the empty store. -/
theorem unknown_sid_status_webhook_acks_200_witness :
    HandleStatus false 11 c4Webhook []
      = ⟨200, [], [.updateStatusFailed .messageNotFound]⟩ :=
  unknown_sid_status_webhook_acks_200 11 c4Webhook []
    (fun r hr => absurd hr (List.not_mem_nil r))

/-- C5 counterexample: with the durable-store write failing, the message
webhook is still answered with HTTP 200 — a success acknowledgment, not a
non-2xx transient error — while the message is not persisted and the failure
is only logged. -/
theorem store_failure_still_acked_200 :
    HandleMessage true (fun _ => none) 0 1 c5Webhook [] []
      = ⟨200, [], [], [.storeMessageFailed]⟩ ∧
    ¬(300 ≤ (HandleMessage true (fun _ => none) 0 1 c5Webhook [] []).httpStatus) :=
  ⟨rfl, by decide⟩

/-- C5 (amended): when the durable-store write fails, the failure is logged
and the state is left unchanged, but the provider still receives the HTTP
200 success acknowledgment — on the message path and on the status path
alike (acknowledgment regardless of persistence outcome). -/
theorem store_failure_logged_and_acked (parseTS : String → Option Nat)
    (now newId : Nat) (wd : TwilioWebhookRequest) (db : DB) (cache : Cache) :
    HandleMessage true parseTS now newId wd db cache
      = ⟨200, db, cache, [.storeMessageFailed]⟩ ∧
    ∀ (nowS : Nat) (wdS : TwilioWebhookRequest) (dbS : DB),
      HandleStatus true nowS wdS dbS
        = ⟨200, dbS, [.updateStatusFailed .execFailed]⟩ :=
  ⟨rfl, fun _ _ _ => rfl⟩

/-- C6: with a secret configured, a request carrying a non-empty signature
that does not verify against the secret (here: "deadbeef", which cannot be
a hex-encoded HMAC-SHA256 value, those having 64 characters) is passed on by
the middleware instead of being rejected; only a missing signature is
rejected, and with no secret verification is skipped. -/
theorem invalid_nonempty_signature_accepted
    (hmacSHA256Hex : String → String → String)
    (hlen : ∀ key msg, (hmacSHA256Hex key msg).length = 64) :
    WhatsAppSignatureVerification "s3cret" "deadbeef" = .next ∧
    verifySignature hmacSHA256Hex "deadbeef" "s3cret" "Body=hi"
      "https://example.com/webhook" = false ∧
    WhatsAppSignatureVerification "s3cret" "" = .abortWith 401 ∧
    WhatsAppSignatureVerification "" "deadbeef" = .next := by
  refine ⟨rfl, ?_, rfl, rfl⟩
  unfold verifySignature
  have hne : "deadbeef"
      ≠ hmacSHA256Hex "s3cret" ("https://example.com/webhook" ++ "Body=hi") := by
    intro he
    have hl := hlen "s3cret" ("https://example.com/webhook" ++ "Body=hi")
    rw [← he] at hl
    exact absurd hl (by decide)
  exact beq_eq_false_iff_ne.mpr hne

/-- C6 witness: instantiated at a concrete 64-character hex function. -/
theorem invalid_nonempty_signature_accepted_witness :
    WhatsAppSignatureVerification "s3cret" "deadbeef" = .next ∧
    verifySignature (fun _ _ =>
      "0000000000000000000000000000000000000000000000000000000000000000")
      "deadbeef" "s3cret" "Body=hi" "https://example.com/webhook" = false ∧
    WhatsAppSignatureVerification "s3cret" "" = .abortWith 401 ∧
    WhatsAppSignatureVerification "" "deadbeef" = .next :=
  invalid_nonempty_signature_accepted _ (fun _ _ => by decide)

/-- C9: an inbound message webhook with NumMedia "0" yields a Message with
direction inbound, type text, status delivered and content equal to the
webhook body; and an absent or malformed event timestamp makes the message
timestamp default to the ingestion time `now`. -/
theorem inbound_text_message_construction (parseTS : String → Option Nat)
    (now newId : Nat) (wd : TwilioWebhookRequest) :
    (wd.NumMedia = "0" →
      (ProcessIncomingMessage parseTS now newId wd).Direction = .inbound ∧
      (ProcessIncomingMessage parseTS now newId wd).type = .text ∧
      (ProcessIncomingMessage parseTS now newId wd).Status = .delivered ∧
      (ProcessIncomingMessage parseTS now newId wd).Content = wd.Body) ∧
    ((wd.Timestamp = "" ∨ parseTS wd.Timestamp = none) →
      (ProcessIncomingMessage parseTS now newId wd).Timestamp = now) := by
  constructor
  · intro h
    refine ⟨rfl, ?_, rfl, rfl⟩
    simp [ProcessIncomingMessage, h, show goAtoi "0" = some 0 from rfl]
  · intro h
    rcases h with h | h
    · simp [ProcessIncomingMessage, h]
    · by_cases he : wd.Timestamp = ""
      · simp [ProcessIncomingMessage, he]
      · simp [ProcessIncomingMessage, he, h]

/-- C9 witness: the scenario webhook `{MessageSid "SM1", From
"+551199990000", Body "oi", NumMedia "0"}` with no event timestamp,
ingested at time 100. -/
theorem inbound_text_message_construction_witness :
    ((ProcessIncomingMessage (fun _ => none) 100 1 c9Webhook).Direction
        = .inbound ∧
      (ProcessIncomingMessage (fun _ => none) 100 1 c9Webhook).type = .text ∧
      (ProcessIncomingMessage (fun _ => none) 100 1 c9Webhook).Status
        = .delivered ∧
      (ProcessIncomingMessage (fun _ => none) 100 1 c9Webhook).Content
        = "oi") ∧
    (ProcessIncomingMessage (fun _ => none) 100 1 c9Webhook).Timestamp
      = 100 := by
  have h := inbound_text_message_construction (fun _ => none) 100 1 c9Webhook
  exact ⟨h.1 rfl, h.2 (Or.inl rfl)⟩
